import Mathlib

/-!
# Verification of the Downly video-downloader backend

A shallow embedding of the core of `src/api/main.py` (the FastAPI backend of
the Downly video downloader) together with proofs about it.

The embedded parts are:

* the Python string primitives the code relies on (`str.strip`, `str.split`,
  `str.replace`, `str.startswith`, `int(...)`), modelled on `List Char`;
* `get_optimized_format_selector` (lines 330-362 of `src/api/main.py`);
* the audio-pick selector of `download_and_process_audio` (lines 688-696),
  which is textually the same logic as lines 342-349;
* the progress-line parser and percent formula of `run_with_progress`
  (lines 455-502 and 747-794; the Windows and Unix branches run the same
  parsing and the same `min(45, 5 + int((d / t) * 40))` formula);
* the sequences of writes the two background pipelines
  (`download_and_process_video`, `download_and_process_audio`) perform on
  `active_tasks[task_id]`, as a function of the observable behaviour of the
  two spawned external processes.

Numbers are embedded as `Nat`/`Int`; Python's float division followed by
`int(...)` truncation is embedded as exact integer T-division, using the
real-number identity `trunc((d / t) * 40) = trunc((d * 40) / t)`.
-/

namespace Downly

/-! ## Python string primitives -/

/-- The characters stripped by Python's default `str.strip()`. -/
def isPySpace (c : Char) : Bool :=
  c = ' ' || c = '\t' || c = '\n' || c = '\x0d' || c = '\x0b' || c = '\x0c'

/-- Python `str.strip()` with no argument: drop whitespace at both ends. -/
def pyStrip (s : String) : String :=
  ⟨((s.data.dropWhile isPySpace).reverse.dropWhile isPySpace).reverse⟩

/-- Python `str.startswith(pre)`. -/
def pyStartsWith (s pre : String) : Bool :=
  List.isPrefixOf pre.data s.data

/-- Python `str.split(sep)` for a single-character separator (the code only
splits on `":"` and `"/"`). -/
def charSplit (sep : Char) : List Char → List (List Char)
  | [] => [[]]
  | c :: cs =>
    if c = sep then
      [] :: charSplit sep cs
    else
      match charSplit sep cs with
      | [] => [[c]]
      | h :: t => (c :: h) :: t

/-- Python `str.split(sep)` on strings, single-character `sep`. -/
def pySplitChar (s : String) (sep : Char) : List String :=
  (charSplit sep s.data).map fun cs => ⟨cs⟩

/-- Python `str.replace("kbps", "")`: remove every (non-overlapping,
left-to-right) occurrence of `"kbps"`. -/
def removeKbpsAux : List Char → List Char
  | 'k' :: 'b' :: 'p' :: 's' :: rest => removeKbpsAux rest
  | c :: cs => c :: removeKbpsAux cs
  | [] => []

/-- `s.replace("kbps", "")` from lines 345 and 692 of the source. -/
def pyReplaceKbps (s : String) : String := ⟨removeKbpsAux s.data⟩

/-- `s.replace("p", "")` from line 336 of the source: removes every `'p'`. -/
def pyReplaceP (s : String) : String :=
  ⟨s.data.filter fun c => !(c = 'p')⟩

/-- Decimal digit accumulation used by `pyInt`. -/
def digitsVal (cs : List Char) : Nat :=
  cs.foldl (fun acc c => acc * 10 + (c.toNat - 48)) 0

/-- Python `int(s)`: strip whitespace, optional sign, then a nonempty run of
decimal digits; anything else raises `ValueError`, modelled as `none`.
(The underscore-separator extension of CPython is not modelled; no call site
depends on it.) -/
def pyInt (s : String) : Option Int :=
  let t := (pyStrip s).data
  let signed : Bool × List Char :=
    match t with
    | '-' :: rest => (true, rest)
    | '+' :: rest => (false, rest)
    | l => (false, l)
  let ds := signed.2
  if ds ≠ [] ∧ ds.all Char.isDigit then
    some (if signed.1 then -(digitsVal ds : Int) else (digitsVal ds : Int))
  else
    none

/-- Python truthiness of an `Optional[str]` value: `None` and `""` are falsy. -/
def pyTruthyOpt : Option String → Bool
  | none => false
  | some s => if s = "" then false else true

/-- Is `pat` a contiguous sublist of the second argument? -/
def listInfix (pat : List Char) : List Char → Bool
  | [] => pat.isEmpty
  | c :: cs => List.isPrefixOf pat (c :: cs) || listInfix pat cs

/-- Python `pat in s` substring containment. -/
def strContains (s pat : String) : Bool :=
  listInfix pat.data s.data

/-! ## Format selector (`get_optimized_format_selector`, lines 330-362) -/

/-- The quality-keyed dictionary lookup with default, lines 356-362:
`format_selectors.get(quality, "best[ext=mp4]/best")`. -/
def fallbackSelector (quality : String) : String :=
  if quality = "best" then "best[ext=mp4]/best"
  else if quality = "high" then "best[height<=1080][ext=mp4]/best[height<=1080]"
  else if quality = "medium" then "best[height<=720][ext=mp4]/best[height<=720]"
  else if quality = "low" then "best[height<=480][ext=mp4]/best[height<=480]"
  else "best[ext=mp4]/best"

/-- The audio-pick selector, lines 342-349 (and, textually identical, lines
689-696 of `download_and_process_audio`): if the pick is truthy and contains
`"kbps"`, try `int(pick.replace("kbps", ""))`; on success constrain `abr` to
`[bitrate-10, bitrate+10]`, on `ValueError` keep `"bestaudio"`. -/
def audioSelectorOf (saf : Option String) : String :=
  if pyTruthyOpt saf && strContains (saf.getD "") "kbps" then
    match pyInt (pyReplaceKbps (saf.getD "")) with
    | some bitrate =>
        "bestaudio[abr<=" ++ toString (bitrate + 10) ++ "][abr>=" ++
          toString (bitrate - 10) ++ "]"
    | none => "bestaudio"
  else "bestaudio"

/-- The explicit-pick branch's return value, line 351:
`f"{video_selector}+{audio_selector}/best[height={resolution}]/best"`. -/
def explicitSelector (resolution : Int) (saf : Option String) : String :=
  "bestvideo[height=" ++ toString resolution ++ "]+" ++ audioSelectorOf saf ++
    "/best[height=" ++ toString resolution ++ "]/best"

/-- `get_optimized_format_selector(quality, selected_video_format,
selected_audio_format)`, lines 330-362: if the video pick is truthy and
`int(pick.replace("p", ""))` parses, build the explicit selector; on
`ValueError` (and when the pick is `None`/empty) fall back to the
quality-based dictionary. -/
def get_optimized_format_selector (quality : String)
    (selected_video_format selected_audio_format : Option String) : String :=
  if pyTruthyOpt selected_video_format then
    match pyInt (pyReplaceP (selected_video_format.getD "")) with
    | some resolution => explicitSelector resolution selected_audio_format
    | none => fallbackSelector quality
  else fallbackSelector quality

/-! ## Observers for selection expressions

These scan a selection expression for the constraints it carries; they are
used to state claims about height ceilings and bitrate bounds. -/

/-- First `height<=N` constraint occurring in a selection expression. -/
def heightCeilingAux : List Char → Option Nat
  | [] => none
  | c :: cs =>
    if List.isPrefixOf "height<=".data (c :: cs) then
      some (digitsVal ((c :: cs).drop 8 |>.takeWhile Char.isDigit))
    else heightCeilingAux cs

/-- Height ceiling of a selection expression, `none` if unconstrained. -/
def heightCeilingOf (s : String) : Option Nat :=
  heightCeilingAux s.data

/-- Integer literal (optional leading minus) at the head of a char list. -/
def intValAt (cs : List Char) : Int :=
  match cs with
  | '-' :: rest => -((digitsVal (rest.takeWhile Char.isDigit) : Nat) : Int)
  | _ => ((digitsVal (cs.takeWhile Char.isDigit) : Nat) : Int)

/-- The char list right after the first occurrence of `pat`, if any. -/
def findAfter (pat : List Char) : List Char → Option (List Char)
  | [] => none
  | c :: cs =>
    if List.isPrefixOf pat (c :: cs) then some ((c :: cs).drop pat.length)
    else findAfter pat cs

/-- The `(lower, upper)` audio-bitrate bounds `abr>=lower`, `abr<=upper`
carried by a selection expression, `none` if either is absent. -/
def abrBoundsOf (s : String) : Option (Int × Int) :=
  match findAfter "abr<=".data s.data, findAfter "abr>=".data s.data with
  | some hiRest, some loRest => some (intValAt loRest, intValAt hiRest)
  | _, _ => none

/-- The height-ceiling mapping as documented by the specification:
`high` ≤ 1080, `medium` ≤ 720, `low` ≤ 480, `best` and anything else
unconstrained. (Spec-side definition, for comparison with the code.) -/
def specHeightCeiling (quality : String) : Option Nat :=
  if quality = "high" then some 1080
  else if quality = "medium" then some 720
  else if quality = "low" then some 480
  else none

/-! ## Progress parsing and percent formulas (`run_with_progress`)

Both monitoring branches (the Windows thread branch, lines 445-477 / 735-767,
and the Unix asyncio branch, lines 478-507 / 768-797) strip each stdout line,
look for the `download:<downloaded>/<total>` template, and on a well-formed
line with positive total store `min(45, 5 + int((int(d) / int(t)) * 40))`.
Any parsing exception (`ValueError` from `int`, unpack failure when the
payload has not exactly one slash) is caught and the line is skipped. -/

/-- Parse one stdout line the way the monitor loops do: a parsed pair
`(downloaded, total)` with `total > 0`, or `none` when the line is skipped. -/
def parseProgressLine (line : String) : Option (Int × Int) :=
  if pyStartsWith (pyStrip line) "download:" then
    match pySplitChar (pyStrip line) ':' with
    | _ :: p1 :: _ =>
      match pySplitChar p1 '/' with
      | [d, t] =>
        if d ≠ "" ∧ t ≠ "" then
          match pyInt t with
          | some tv =>
            if 0 < tv then
              match pyInt d with
              | some dv => some (dv, tv)
              | none => none
            else none
          | none => none
        else none
      | _ => none
    | _ => none
  else none

/-- `min(45, 5 + int((d / t) * 40))` from lines 465, 500, 755 and 790;
Python's float division followed by `int` truncation equals integer
T-division: `trunc((d / t) * 40) = (d * 40).tdiv t`. -/
def fetchPercent (d t : Int) : Int :=
  min 45 (5 + Int.tdiv (d * 40) t)

/-- The transcode-stage poll percentage
`min(90, 60 + int(elapsed / budget * 30))` (lines 595, 622 with budget 30 for
video; lines 887, 914 with budget 20 for audio), for a whole-second elapsed
time. -/
def procPercent (budget e : Nat) : Int :=
  ((min 90 (60 + (e * 30) / budget) : Nat) : Int)

/-! ## The job state store and the pipelines' writes

`active_tasks[task_id]` holds one status record per job.  The pipelines write
to it in two ways: wholesale replacement (`active_tasks[task_id] = {...}`)
and single-field mutation (`active_tasks[task_id]["progress"] = ...`,
`active_tasks[task_id]["message"] = ...`).  Those are the only field
mutations occurring in the source. -/

/-- A job status record; absent dictionary keys are `none`. -/
structure TaskRec where
  status : String
  progress : Int
  message : String
  download_url : Option String := none
  error : Option String := none
deriving DecidableEq

/-- One write to a job's entry in `active_tasks`. -/
inductive WriteOp where
  | replace (r : TaskRec)
  | setProgress (p : Int)
  | setMessage (m : String)
deriving DecidableEq

/-- Effect of a write on the stored record. -/
def applyWrite (r : TaskRec) : WriteOp → TaskRec
  | .replace r' => r'
  | .setProgress p => { r with progress := p }
  | .setMessage m => { r with message := m }

/-- Is the write a full-record replacement? -/
def isFullReplace : WriteOp → Bool
  | .replace _ => true
  | _ => false

/-- The progress value each write stores, skipping message-only writes. -/
def progressSeq (ws : List WriteOp) : List Int :=
  ws.filterMap fun w =>
    match w with
    | .replace r => some r.progress
    | .setProgress p => some p
    | .setMessage _ => none

/-- Is a list of progress values non-decreasing? -/
def nondecreasing : List Int → Bool
  | [] => true
  | [_] => true
  | a :: b :: t => a ≤ b && nondecreasing (b :: t)

/-- Last write of a trace. -/
def lastWrite (ws : List WriteOp) : Option WriteOp :=
  ws.reverse.head?

/-! ### The records the video pipeline writes (`download_and_process_video`) -/

/-- Lines 374-378. -/
def videoStartRec : TaskRec :=
  { status := "downloading", progress := 5, message := "Starting download..." }

/-- Lines 515-520: fetch process exited non-zero. -/
def fetchFailedRec : TaskRec :=
  { status := "failed", progress := 0, message := "Download failed",
    error := some "Process exited with non-zero code" }

/-- Lines 524-529: the `except asyncio.TimeoutError` handler's record. -/
def videoTimeoutRec : TaskRec :=
  { status := "failed", progress := 0, message := "Download timeout",
    error := some "Download took too long" }

/-- Lines 535-539: no downloaded file found (note: no `error` key). -/
def videoNoFileRec : TaskRec :=
  { status := "failed", progress := 0,
    message := "Download failed - no file found" }

/-- Lines 543-547. -/
def videoProcessingRec : TaskRec :=
  { status := "processing", progress := 50, message := "Processing video..." }

/-- Lines 637-643: ffmpeg exited non-zero; error is stderr or a default. -/
def videoProcFailedRec (stderr : String) : TaskRec :=
  { status := "failed", progress := 0, message := "Processing failed",
    error := some (if stderr ≠ "" then stderr else "Unknown error") }

/-- Lines 650-655. -/
def videoCompletedRec (filename : String) : TaskRec :=
  { status := "completed", progress := 100, message := "Ready for download",
    download_url := some ("/downloads/" ++ filename) }

/-! ### The records the audio pipeline writes (`download_and_process_audio`) -/

/-- Lines 677-681. -/
def audioStartRec : TaskRec :=
  { status := "downloading", progress := 5,
    message := "Starting audio download..." }

/-- Lines 805-810. -/
def audioFetchFailedRec : TaskRec :=
  { status := "failed", progress := 0, message := "Audio download failed",
    error := some "Process exited with non-zero code" }

/-- Lines 814-819: the audio `except asyncio.TimeoutError` handler's record. -/
def audioTimeoutRec : TaskRec :=
  { status := "failed", progress := 0, message := "Download timeout",
    error := some "Audio download took too long" }

/-- Lines 825-829 (note: no `error` key). -/
def audioNoFileRec : TaskRec :=
  { status := "failed", progress := 0,
    message := "Audio download failed - no file found" }

/-- Lines 833-837. -/
def audioProcessingRec : TaskRec :=
  { status := "processing", progress := 50, message := "Processing audio..." }

/-- Lines 929-935. -/
def audioProcFailedRec (stderr : String) : TaskRec :=
  { status := "failed", progress := 0, message := "Audio processing failed",
    error := some (if stderr ≠ "" then stderr else "Unknown error") }

/-- Lines 942-947. -/
def audioCompletedRec (filename : String) : TaskRec :=
  { status := "completed", progress := 100,
    message := "Audio ready for download",
    download_url := some ("/downloads/" ++ filename) }

/-- Lines 851-863: the audio output filename follows the requested container
except that an unrecognized container falls back to mp3 (and renames the
output accordingly). -/
def audioOutputFilename (taskId fmt : String) : String :=
  if fmt = "mp3" ∨ fmt = "m4a" ∨ fmt = "ogg" ∨ fmt = "wav" then
    taskId ++ "." ++ fmt
  else taskId ++ ".mp3"

/-! ### Pipeline environments and write traces -/

/-- The externally observable behaviour one pipeline run reacts to.
`fetchExit = none` models a fetch process that never exits (it may still have
emitted the lines in `fetchLines` before hanging).  `ffmpegElapsed` lists the
whole-second elapsed times sampled by the 1-second poll loop. -/
structure PipelineEnv where
  taskId : String
  outputFormat : String
  fetchLines : List String
  fetchExit : Option Int
  fileFound : Bool
  ffmpegElapsed : List Nat
  ffmpegExit : Int
  ffmpegStderr : String

/-- The writes the monitor loop performs for one stdout line (lines 457-469
and 487-504; `label` is `"video"` or `"audio"` per the message templates). -/
def fetchLineWrites (label : String) (line : String) : List WriteOp :=
  match parseProgressLine line with
  | some (d, t) =>
      [.setProgress (fetchPercent d t),
       .setMessage ("Downloading " ++ label ++ "... " ++
         toString (fetchPercent d t) ++ "%")]
  | none => []

/-- The writes of one iteration of the ffmpeg poll loop (lines 591-600 and
618-627 for video, 883-892 and 910-921 for audio). -/
def ffmpegPollWrites (budget : Nat) (label : String) (e : Nat) : List WriteOp :=
  [.setProgress (procPercent budget e),
   .setMessage ("Processing " ++ label ++ "... " ++
     toString (procPercent budget e) ++ "%")]

/-- The sequence of writes `download_and_process_video` performs on
`active_tasks[task_id]` (lines 364-666), as a function of the observable
behaviour of the two external processes.  There is no timeout around the
fetch stage (`run_with_progress` is awaited bare at line 511), so when the
fetch process never exits the trace simply stops after the line writes; the
`asyncio.TimeoutError` handler of lines 523-530 has nothing that can raise
into it. -/
def videoWrites (env : PipelineEnv) : List WriteOp :=
  [.replace videoStartRec,
   .setProgress 10, .setMessage "Downloading video..."]
  ++ (env.fetchLines.map (fetchLineWrites "video")).flatten
  ++ match env.fetchExit with
     | none => []
     | some rc =>
       if rc ≠ 0 then [.replace fetchFailedRec]
       else if env.fileFound = false then [.replace videoNoFileRec]
       else
         [.replace videoProcessingRec,
          .setProgress 60, .setMessage "Converting video format..."]
         ++ (env.ffmpegElapsed.map (ffmpegPollWrites 30 "video")).flatten
         ++ (if env.ffmpegExit ≠ 0 then
               [.replace (videoProcFailedRec env.ffmpegStderr)]
             else
               [.replace (videoCompletedRec
                 (env.taskId ++ "." ++ env.outputFormat))])

/-- The sequence of writes `download_and_process_audio` performs on
`active_tasks[task_id]` (lines 668-958); same structure as the video
pipeline with the audio messages, the 20-second ffmpeg budget and the
audio filename fallback. -/
def audioWrites (env : PipelineEnv) : List WriteOp :=
  [.replace audioStartRec,
   .setProgress 10, .setMessage "Downloading audio..."]
  ++ (env.fetchLines.map (fetchLineWrites "audio")).flatten
  ++ match env.fetchExit with
     | none => []
     | some rc =>
       if rc ≠ 0 then [.replace audioFetchFailedRec]
       else if env.fileFound = false then [.replace audioNoFileRec]
       else
         [.replace audioProcessingRec,
          .setProgress 60, .setMessage "Converting audio format..."]
         ++ (env.ffmpegElapsed.map (ffmpegPollWrites 20 "audio")).flatten
         ++ (if env.ffmpegExit ≠ 0 then
               [.replace (audioProcFailedRec env.ffmpegStderr)]
             else
               [.replace (audioCompletedRec
                 (audioOutputFilename env.taskId env.outputFormat))])

/-! ## Distinguished environments used in concrete statements -/

/-- Fetch succeeds but no output file matches the glob. -/
def envNoFile : PipelineEnv :=
  { taskId := "t", outputFormat := "mp4", fetchLines := [],
    fetchExit := some 0, fileFound := false,
    ffmpegElapsed := [], ffmpegExit := 0, ffmpegStderr := "" }

/-- A run whose second progress line reports a much smaller ratio than the
first and whose fetch process then exits non-zero. -/
def envDecrease : PipelineEnv :=
  { taskId := "t", outputFormat := "mp4",
    fetchLines := ["download:999/1000", "download:1/1000000"],
    fetchExit := some 1, fileFound := false,
    ffmpegElapsed := [], ffmpegExit := 0, ffmpegStderr := "" }

/-- A fetch process that hangs forever without emitting output. -/
def envHang : PipelineEnv :=
  { taskId := "t", outputFormat := "mp4", fetchLines := [],
    fetchExit := none, fileFound := false,
    ffmpegElapsed := [], ffmpegExit := 0, ffmpegStderr := "" }

/-- A fetch process that exits with code 1. -/
def envExit1 : PipelineEnv :=
  { taskId := "t", outputFormat := "mp4", fetchLines := [],
    fetchExit := some 1, fileFound := false,
    ffmpegElapsed := [], ffmpegExit := 0, ffmpegStderr := "" }

/-- A fully successful run. -/
def envDone : PipelineEnv :=
  { taskId := "t", outputFormat := "mp4", fetchLines := [],
    fetchExit := some 0, fileFound := true,
    ffmpegElapsed := [0, 1], ffmpegExit := 0, ffmpegStderr := "" }

/-- The terminal-record discipline the pipelines actually maintain:
`completed` records carry a `download_url` and no `error`; `failed` records
never carry a `download_url`; `download_url` and `error` are never both set;
and a `failed` record lacks an `error` field only on the two
missing-output-file paths. -/
def terminalOk : WriteOp → Prop
  | .replace r =>
      (r.status = "completed" → r.download_url.isSome = true ∧ r.error = none) ∧
      (r.status = "failed" → r.download_url = none ∧
        (r.error = none →
          r.message = "Download failed - no file found" ∨
          r.message = "Audio download failed - no file found")) ∧
      ¬(r.download_url.isSome = true ∧ r.error.isSome = true)
  | .setProgress _ => True
  | .setMessage _ => True

/-! ## General lemmas about the embedding -/

/-- `Int.tdiv` on natural casts is natural division (both truncate). -/
theorem tdiv_natCast (m n : Nat) :
    Int.tdiv ((m : Nat) : Int) ((n : Nat) : Int) = (((m / n : Nat)) : Int) :=
  rfl

/-- A positive total is guaranteed whenever a progress line parses. -/
theorem parseProgressLine_pos {line : String} {dv tv : Int}
    (h : parseProgressLine line = some (dv, tv)) : 0 < tv := by
  unfold parseProgressLine at h
  split at h
  · split at h
    · split at h
      · split at h
        · split at h
          · split at h
            · split at h
              · injection h with h'
                cases h'
                assumption
              · exact absurd h (by simp)
            · exact absurd h (by simp)
          · exact absurd h (by simp)
        · exact absurd h (by simp)
      · exact absurd h (by simp)
    · exact absurd h (by simp)
  · exact absurd h (by simp)

/-- The per-line monitor writes are only progress/message field mutations. -/
theorem mem_fetchLineWrites {lbl line : String} {w : WriteOp}
    (h : w ∈ fetchLineWrites lbl line) :
    (∃ p, w = .setProgress p) ∨ ∃ m, w = .setMessage m := by
  unfold fetchLineWrites at h
  split at h
  · simp only [List.mem_cons, List.not_mem_nil, or_false] at h
    rcases h with h | h
    · exact Or.inl ⟨_, h⟩
    · exact Or.inr ⟨_, h⟩
  · exact absurd h (by simp)

/-- The ffmpeg poll-loop writes are only progress/message field mutations. -/
theorem mem_ffmpegPollWrites {budget : Nat} {lbl : String} {e : Nat}
    {w : WriteOp} (h : w ∈ ffmpegPollWrites budget lbl e) :
    (∃ p, w = .setProgress p) ∨ ∃ m, w = .setMessage m := by
  unfold ffmpegPollWrites at h
  simp only [List.mem_cons, List.not_mem_nil, or_false] at h
  rcases h with h | h
  · exact Or.inl ⟨_, h⟩
  · exact Or.inr ⟨_, h⟩

/-- Exhaustive description of what a write in the video pipeline's trace can
be: one of the six full-record replacements, or a progress/message mutation. -/
theorem video_mem_cases (env : PipelineEnv) (w : WriteOp)
    (h : w ∈ videoWrites env) :
    w = .replace videoStartRec ∨
    w = .replace fetchFailedRec ∨
    w = .replace videoNoFileRec ∨
    w = .replace videoProcessingRec ∨
    w = .replace (videoProcFailedRec env.ffmpegStderr) ∨
    w = .replace (videoCompletedRec (env.taskId ++ "." ++ env.outputFormat)) ∨
    (∃ p, w = .setProgress p) ∨ (∃ m, w = .setMessage m) := by
  unfold videoWrites at h
  simp only [List.mem_append] at h
  rcases h with (h | h) | h
  · simp only [List.mem_cons, List.not_mem_nil, or_false] at h
    rcases h with h | h | h
    · exact Or.inl h
    · exact Or.inr (Or.inr (Or.inr (Or.inr (Or.inr (Or.inr (Or.inl ⟨_, h⟩))))))
    · exact Or.inr (Or.inr (Or.inr (Or.inr (Or.inr (Or.inr (Or.inr ⟨_, h⟩))))))
  · rw [List.mem_flatten] at h
    obtain ⟨l, hl, hw⟩ := h
    rw [List.mem_map] at hl
    obtain ⟨line, _, rfl⟩ := hl
    rcases mem_fetchLineWrites hw with hp | hm
    · exact Or.inr (Or.inr (Or.inr (Or.inr (Or.inr (Or.inr (Or.inl hp))))))
    · exact Or.inr (Or.inr (Or.inr (Or.inr (Or.inr (Or.inr (Or.inr hm))))))
  · split at h
    · exact absurd h (by simp)
    · split at h
      · simp only [List.mem_singleton] at h
        exact Or.inr (Or.inl h)
      · split at h
        · simp only [List.mem_singleton] at h
          exact Or.inr (Or.inr (Or.inl h))
        · simp only [List.mem_append] at h
          rcases h with (h | h) | h
          · simp only [List.mem_cons, List.not_mem_nil, or_false] at h
            rcases h with h | h | h
            · exact Or.inr (Or.inr (Or.inr (Or.inl h)))
            · exact Or.inr (Or.inr (Or.inr (Or.inr (Or.inr (Or.inr
                (Or.inl ⟨_, h⟩))))))
            · exact Or.inr (Or.inr (Or.inr (Or.inr (Or.inr (Or.inr
                (Or.inr ⟨_, h⟩))))))
          · rw [List.mem_flatten] at h
            obtain ⟨l, hl, hw⟩ := h
            rw [List.mem_map] at hl
            obtain ⟨e, _, rfl⟩ := hl
            rcases mem_ffmpegPollWrites hw with hp | hm
            · exact Or.inr (Or.inr (Or.inr (Or.inr (Or.inr (Or.inr
                (Or.inl hp))))))
            · exact Or.inr (Or.inr (Or.inr (Or.inr (Or.inr (Or.inr
                (Or.inr hm))))))
          · split at h
            · simp only [List.mem_singleton] at h
              exact Or.inr (Or.inr (Or.inr (Or.inr (Or.inl h))))
            · simp only [List.mem_singleton] at h
              exact Or.inr (Or.inr (Or.inr (Or.inr (Or.inr (Or.inl h)))))

/-- Exhaustive description of what a write in the audio pipeline's trace can
be. -/
theorem audio_mem_cases (env : PipelineEnv) (w : WriteOp)
    (h : w ∈ audioWrites env) :
    w = .replace audioStartRec ∨
    w = .replace audioFetchFailedRec ∨
    w = .replace audioNoFileRec ∨
    w = .replace audioProcessingRec ∨
    w = .replace (audioProcFailedRec env.ffmpegStderr) ∨
    w = .replace (audioCompletedRec
      (audioOutputFilename env.taskId env.outputFormat)) ∨
    (∃ p, w = .setProgress p) ∨ (∃ m, w = .setMessage m) := by
  unfold audioWrites at h
  simp only [List.mem_append] at h
  rcases h with (h | h) | h
  · simp only [List.mem_cons, List.not_mem_nil, or_false] at h
    rcases h with h | h | h
    · exact Or.inl h
    · exact Or.inr (Or.inr (Or.inr (Or.inr (Or.inr (Or.inr (Or.inl ⟨_, h⟩))))))
    · exact Or.inr (Or.inr (Or.inr (Or.inr (Or.inr (Or.inr (Or.inr ⟨_, h⟩))))))
  · rw [List.mem_flatten] at h
    obtain ⟨l, hl, hw⟩ := h
    rw [List.mem_map] at hl
    obtain ⟨line, _, rfl⟩ := hl
    rcases mem_fetchLineWrites hw with hp | hm
    · exact Or.inr (Or.inr (Or.inr (Or.inr (Or.inr (Or.inr (Or.inl hp))))))
    · exact Or.inr (Or.inr (Or.inr (Or.inr (Or.inr (Or.inr (Or.inr hm))))))
  · split at h
    · exact absurd h (by simp)
    · split at h
      · simp only [List.mem_singleton] at h
        exact Or.inr (Or.inl h)
      · split at h
        · simp only [List.mem_singleton] at h
          exact Or.inr (Or.inr (Or.inl h))
        · simp only [List.mem_append] at h
          rcases h with (h | h) | h
          · simp only [List.mem_cons, List.not_mem_nil, or_false] at h
            rcases h with h | h | h
            · exact Or.inr (Or.inr (Or.inr (Or.inl h)))
            · exact Or.inr (Or.inr (Or.inr (Or.inr (Or.inr (Or.inr
                (Or.inl ⟨_, h⟩))))))
            · exact Or.inr (Or.inr (Or.inr (Or.inr (Or.inr (Or.inr
                (Or.inr ⟨_, h⟩))))))
          · rw [List.mem_flatten] at h
            obtain ⟨l, hl, hw⟩ := h
            rw [List.mem_map] at hl
            obtain ⟨e, _, rfl⟩ := hl
            rcases mem_ffmpegPollWrites hw with hp | hm
            · exact Or.inr (Or.inr (Or.inr (Or.inr (Or.inr (Or.inr
                (Or.inl hp))))))
            · exact Or.inr (Or.inr (Or.inr (Or.inr (Or.inr (Or.inr
                (Or.inr hm))))))
          · split at h
            · simp only [List.mem_singleton] at h
              exact Or.inr (Or.inr (Or.inr (Or.inr (Or.inl h))))
            · simp only [List.mem_singleton] at h
              exact Or.inr (Or.inr (Or.inr (Or.inr (Or.inr (Or.inl h)))))

/-- The last write of a trace ending in a given singleton. -/
theorem lastWrite_append_singleton (l : List WriteOp) (w : WriteOp) :
    lastWrite (l ++ [w]) = some w := by
  simp [lastWrite, List.reverse_append]

/-! ## Claim theorems -/

/-- C6: for a fetch-stage progress signal whose byte counters parse to
`downloaded = d`, `total = t` (the parser only succeeds with `t > 0`), the
value stored by the monitor loop equals `5 + floor((d / t) * 40)` clamped to
`[5, 45]`; a line whose total is unknown or zero fails to parse and performs
no write, leaving the stored record unchanged. -/
theorem fetch_progress_mapping (prev : TaskRec) (line : String) (d t : Nat) :
    (parseProgressLine line = some ((d : Int), (t : Int)) →
      ((fetchLineWrites "video" line).foldl applyWrite prev).progress =
          max 5 (min 45 (5 + Int.tdiv ((d : Int) * 40) ((t : Int)))) ∧
        5 ≤ ((fetchLineWrites "video" line).foldl applyWrite prev).progress ∧
        ((fetchLineWrites "video" line).foldl applyWrite prev).progress ≤ 45) ∧
    (parseProgressLine line = none →
      (fetchLineWrites "video" line).foldl applyWrite prev = prev) := by
  constructor
  · intro hp
    have hcast : ((d : Int) * 40) = (((d * 40 : Nat)) : Int) := by push_cast; ring
    have hdiv : Int.tdiv ((d : Int) * 40) ((t : Int)) =
        (((d * 40 / t : Nat)) : Int) := by rw [hcast, tdiv_natCast]
    have hpr : ((fetchLineWrites "video" line).foldl applyWrite prev).progress =
        fetchPercent (d : Int) (t : Int) := by
      unfold fetchLineWrites
      rw [hp]
      rfl
    rw [hpr]
    unfold fetchPercent
    rw [hdiv]
    have h0 : (0 : Int) ≤ (((d * 40 / t : Nat)) : Int) := Int.natCast_nonneg _
    have h5 : (5 : Int) ≤ min 45 (5 + (((d * 40 / t : Nat)) : Int)) :=
      le_min (by norm_num) (by omega)
    exact ⟨(max_eq_right h5).symm, h5, min_le_left _ _⟩
  · intro hp
    unfold fetchLineWrites
    rw [hp]
    rfl

/-- C7: with no explicit video pick, the selector returns a non-empty
expression whose height ceiling is exactly the documented quality mapping
(`high` ≤ 1080, `medium` ≤ 720, `low` ≤ 480, `best` and unrecognized values
unconstrained), independently of the audio pick. -/
theorem quality_height_mapping (q : String) (saf : Option String) :
    get_optimized_format_selector q none saf ≠ "" ∧
    heightCeilingOf (get_optimized_format_selector q none saf) =
      specHeightCeiling q := by
  have hfb : get_optimized_format_selector q none saf = fallbackSelector q := rfl
  rw [hfb]
  unfold fallbackSelector specHeightCeiling
  split_ifs <;> first | decide | simp_all

/-- C8: an audio pick containing `"kbps"` whose remainder parses as an
integer `N` yields the audio constraint `bestaudio[abr<=N+10][abr>=N-10]`,
i.e. bounds the bitrate to `[N-10, N+10]` (concretely `[118, 138]` for
`"128kbps"`); a pick whose remainder does not parse falls back to
`"bestaudio"`. -/
theorem audio_bitrate_window :
    (audioSelectorOf (some "128kbps") = "bestaudio[abr<=138][abr>=118]" ∧
      abrBoundsOf (audioSelectorOf (some "128kbps")) = some (118, 138)) ∧
    ∀ s : String, strContains s "kbps" = true →
      (∀ b : Int, pyInt (pyReplaceKbps s) = some b →
        audioSelectorOf (some s) =
          "bestaudio[abr<=" ++ toString (b + 10) ++ "][abr>=" ++
            toString (b - 10) ++ "]") ∧
      (pyInt (pyReplaceKbps s) = none → audioSelectorOf (some s) = "bestaudio") := by
  constructor
  · constructor
    · decide
    · decide
  · intro s hc
    have hs : s ≠ "" := by
      intro h
      subst h
      exact absurd hc (by decide)
    have ht : pyTruthyOpt (some s) = true := by
      show (if s = "" then false else true) = true
      rw [if_neg hs]
    have hcond : (pyTruthyOpt (some s) && strContains ((some s).getD "") "kbps")
        = true := by
      rw [Option.getD_some, ht, hc]
      rfl
    constructor
    · intro b hb
      unfold audioSelectorOf
      rw [hcond]
      simp only [if_true, Option.getD_some, hb]
    · intro hb
      unfold audioSelectorOf
      rw [hcond]
      simp only [if_true, Option.getD_some, hb]

/-- The format selector either returns the quality fallback or, when the
video pick is truthy and parses, the explicit selector. -/
theorem selector_cases (q : String) (svf saf : Option String) :
    get_optimized_format_selector q svf saf = fallbackSelector q ∨
    ∃ res, pyInt (pyReplaceP (svf.getD "")) = some res ∧
      pyTruthyOpt svf = true ∧
      get_optimized_format_selector q svf saf = explicitSelector res saf := by
  unfold get_optimized_format_selector
  split
  · next htruthy =>
    cases hP : pyInt (pyReplaceP (svf.getD ""))
    · exact Or.inl rfl
    · next res => exact Or.inr ⟨res, rfl, htruthy, rfl⟩
  · exact Or.inl rfl

/-- Every explicit selector starts with `best`. -/
theorem explicitSelector_startsWith (res : Int) (saf : Option String) :
    pyStartsWith (explicitSelector res saf) "best" = true :=
  rfl

/-- C9: the format selector is total — on every input it returns an
expression starting with `best` (in particular non-empty) — and any
unparseable or falsy explicit video pick is silently ignored, yielding the
quality-based fallback selector. -/
theorem selector_total_and_fallback (q : String) (svf saf : Option String) :
    pyStartsWith (get_optimized_format_selector q svf saf) "best" = true ∧
    get_optimized_format_selector q svf saf ≠ "" ∧
    (pyTruthyOpt svf = false →
      get_optimized_format_selector q svf saf = fallbackSelector q) ∧
    ∀ s, svf = some s → pyInt (pyReplaceP s) = none →
      get_optimized_format_selector q svf saf = fallbackSelector q := by
  have hfb1 : pyStartsWith (fallbackSelector q) "best" = true := by
    unfold fallbackSelector
    split_ifs <;> decide
  have hfb2 : fallbackSelector q ≠ "" := by
    unfold fallbackSelector
    split_ifs <;> decide
  rcases selector_cases q svf saf with hcase | ⟨res, hres, htruthy, hcase⟩
  · rw [hcase]
    exact ⟨hfb1, hfb2, fun _ => rfl, fun _ _ _ => rfl⟩
  · rw [hcase]
    have hst := explicitSelector_startsWith res saf
    refine ⟨hst, ?_, ?_, ?_⟩
    · intro h
      rw [h] at hst
      exact absurd hst (by decide)
    · intro hfalse
      rw [htruthy] at hfalse
      exact absurd hfalse (by decide)
    · intro s hs hn
      rw [hs, Option.getD_some, hn] at hres
      exact absurd hres (by simp)

/-- C10: when no explicit video pick is supplied (`None` or empty), the
explicit audio pick is ignored entirely — the result is the quality fallback,
identical for any two audio picks, and carries no `abr` constraint. -/
theorem audio_pick_ignored_without_video_pick (q : String)
    (saf saf' : Option String) :
    get_optimized_format_selector q none saf = fallbackSelector q ∧
    get_optimized_format_selector q (some "") saf = fallbackSelector q ∧
    get_optimized_format_selector q none saf =
      get_optimized_format_selector q none saf' ∧
    strContains (get_optimized_format_selector q none saf) "abr" = false := by
  refine ⟨rfl, rfl, rfl, ?_⟩
  show strContains (fallbackSelector q) "abr" = false
  unfold fallbackSelector
  split_ifs <;> decide

/-- The transcode-failure record keeps the terminal-record discipline. -/
theorem terminalOk_videoProcFailed (s : String) :
    terminalOk (.replace (videoProcFailedRec s)) := by
  refine ⟨fun hc => ?_, fun _ => ⟨rfl, fun he => ?_⟩, fun h => ?_⟩
  · simp [videoProcFailedRec] at hc
  · simp [videoProcFailedRec] at he
  · simp [videoProcFailedRec] at h

/-- The completed record keeps the terminal-record discipline. -/
theorem terminalOk_videoCompleted (f : String) :
    terminalOk (.replace (videoCompletedRec f)) := by
  refine ⟨fun _ => ⟨rfl, rfl⟩, fun hf => ?_, fun h => ?_⟩
  · simp [videoCompletedRec] at hf
  · simp [videoCompletedRec] at h

/-- The audio transcode-failure record keeps the discipline. -/
theorem terminalOk_audioProcFailed (s : String) :
    terminalOk (.replace (audioProcFailedRec s)) := by
  refine ⟨fun hc => ?_, fun _ => ⟨rfl, fun he => ?_⟩, fun h => ?_⟩
  · simp [audioProcFailedRec] at hc
  · simp [audioProcFailedRec] at he
  · simp [audioProcFailedRec] at h

/-- The audio completed record keeps the discipline. -/
theorem terminalOk_audioCompleted (f : String) :
    terminalOk (.replace (audioCompletedRec f)) := by
  refine ⟨fun _ => ⟨rfl, rfl⟩, fun hf => ?_, fun h => ?_⟩
  · simp [audioCompletedRec] at hf
  · simp [audioCompletedRec] at h

/-- C1 (amended): in every pipeline trace, `completed` records carry a
`download_url` and no `error`, `failed` records never carry a
`download_url`, `download_url` and `error` are mutually exclusive, and a
`failed` record lacks `error` only on the two no-output-file paths. -/
theorem terminal_fields_discipline (env : PipelineEnv) (w : WriteOp)
    (h : w ∈ videoWrites env ∨ w ∈ audioWrites env) : terminalOk w := by
  rcases h with h | h
  · rcases video_mem_cases env w h with
      h | h | h | h | h | h | ⟨p, h⟩ | ⟨m, h⟩ <;> subst h
    · unfold terminalOk
      decide
    · unfold terminalOk
      decide
    · unfold terminalOk
      decide
    · unfold terminalOk
      decide
    · exact terminalOk_videoProcFailed _
    · exact terminalOk_videoCompleted _
    · trivial
    · trivial
  · rcases audio_mem_cases env w h with
      h | h | h | h | h | h | ⟨p, h⟩ | ⟨m, h⟩ <;> subst h
    · unfold terminalOk
      decide
    · unfold terminalOk
      decide
    · unfold terminalOk
      decide
    · unfold terminalOk
      decide
    · exact terminalOk_audioProcFailed _
    · exact terminalOk_audioCompleted _
    · trivial
    · trivial

/-- Witness for C1's amended theorem at a fully successful concrete run. -/
theorem terminal_fields_discipline_witness :
    terminalOk (WriteOp.replace (videoCompletedRec "t.mp4")) :=
  terminal_fields_discipline envDone
    (WriteOp.replace (videoCompletedRec "t.mp4")) (Or.inl (by decide))

/-- C1 (counterexample to the claim as stated): both pipelines write a
terminal `failed` record with no `error` field at all when the fetch process
exits 0 but no output file is found. -/
theorem failed_without_error_counterexample :
    WriteOp.replace videoNoFileRec ∈ videoWrites envNoFile ∧
    videoNoFileRec.status = "failed" ∧
    videoNoFileRec.error = none ∧
    videoNoFileRec.download_url = none ∧
    WriteOp.replace audioNoFileRec ∈ audioWrites envNoFile ∧
    audioNoFileRec.status = "failed" ∧
    audioNoFileRec.error = none := by decide

/-- C2 (amended): both stage mappers are monotone in their raw signal —
the fetch percent in the downloaded bytes at fixed total, the transcode
percent in the elapsed time. -/
theorem stage_mappers_monotone (d d' t b e e' : Nat)
    (hd : d ≤ d') (he : e ≤ e') (ht : 0 < t) :
    fetchPercent ((d : Nat) : Int) ((t : Nat) : Int) ≤
      fetchPercent ((d' : Nat) : Int) ((t : Nat) : Int) ∧
    procPercent b e ≤ procPercent b e' := by
  constructor
  · unfold fetchPercent
    have h1 : ((d : Int) * 40) = (((d * 40 : Nat)) : Int) := by push_cast; ring
    have h2 : ((d' : Int) * 40) = (((d' * 40 : Nat)) : Int) := by
      push_cast; ring
    rw [h1, h2, tdiv_natCast, tdiv_natCast]
    have hm : (d * 40) / t ≤ (d' * 40) / t :=
      Nat.div_le_div_right (Nat.mul_le_mul_right 40 hd)
    have hm' : (((d * 40 / t : Nat)) : Int) ≤ (((d' * 40 / t : Nat)) : Int) := by
      exact_mod_cast hm
    exact min_le_min (le_refl 45) (by omega)
  · unfold procPercent
    have hm : (e * 30) / b ≤ (e' * 30) / b :=
      Nat.div_le_div_right (Nat.mul_le_mul_right 30 he)
    exact_mod_cast min_le_min (le_refl 90) (Nat.add_le_add_left hm 60)

/-- Witness for C2's amended theorem at concrete signals. -/
theorem stage_mappers_monotone_witness :
    fetchPercent ((1 : Nat) : Int) ((1000 : Nat) : Int) ≤
      fetchPercent ((999 : Nat) : Int) ((1000 : Nat) : Int) ∧
    procPercent 30 1 ≤ procPercent 30 2 :=
  stage_mappers_monotone 1 999 1000 30 1 2 (by decide) (by decide) (by decide)

/-- C2 (counterexample to the claim as stated): a concrete video run whose
stored progress goes 5, 10, 44, 5, 0 — it decreases both within the fetch
stage (44 to 5, when the second progress line reports a smaller ratio) and
at the terminal `failed` write (to 0). -/
theorem progress_decrease_counterexample :
    progressSeq (videoWrites envDecrease) = [5, 10, 44, 5, 0] ∧
    nondecreasing (progressSeq (videoWrites envDecrease)) = false := by decide

/-- C3 (amended): every trace write either replaces the whole record or
mutates only the `progress`/`message` fields, leaving `status`,
`download_url` and `error` of the stored record untouched. -/
theorem writes_replace_or_field_mutation (env : PipelineEnv) (w : WriteOp)
    (prev : TaskRec) (h : w ∈ videoWrites env ∨ w ∈ audioWrites env)
    (hf : isFullReplace w = false) :
    (applyWrite prev w).status = prev.status ∧
    (applyWrite prev w).download_url = prev.download_url ∧
    (applyWrite prev w).error = prev.error := by
  cases w with
  | replace r => exact absurd hf (by simp [isFullReplace])
  | setProgress p => exact ⟨rfl, rfl, rfl⟩
  | setMessage m => exact ⟨rfl, rfl, rfl⟩

/-- Witness for C3's amended theorem at a concrete field write. -/
theorem writes_replace_or_field_mutation_witness :
    (applyWrite videoStartRec (WriteOp.setProgress 10)).status =
      videoStartRec.status ∧
    (applyWrite videoStartRec (WriteOp.setProgress 10)).download_url =
      videoStartRec.download_url ∧
    (applyWrite videoStartRec (WriteOp.setProgress 10)).error =
      videoStartRec.error :=
  writes_replace_or_field_mutation envNoFile (WriteOp.setProgress 10)
    videoStartRec (Or.inl (by decide)) (by decide)

/-- C3 (counterexample to the claim as stated): `setProgress 10` (line 434,
`active_tasks[task_id]["progress"] = 10`) is a write both pipelines perform
and it is not a full-record replacement. -/
theorem partial_write_counterexample :
    isFullReplace (WriteOp.setProgress 10) = false ∧
    WriteOp.setProgress 10 ∈ videoWrites envNoFile ∧
    WriteOp.setProgress 10 ∈ audioWrites envNoFile := by decide

/-- C4: when the fetch process never exits, the only full record either
pipeline ever writes is the initial `downloading` record — no `failed`
record, and in particular never the timeout record of the dead
`except asyncio.TimeoutError` handler; nothing bounds the fetch stage. -/
theorem fetch_has_no_timeout (env : PipelineEnv)
    (hfe : env.fetchExit = none) :
    (∀ r : TaskRec, WriteOp.replace r ∈ videoWrites env → r = videoStartRec) ∧
    (∀ r : TaskRec, WriteOp.replace r ∈ audioWrites env → r = audioStartRec) ∧
    WriteOp.replace videoTimeoutRec ∉ videoWrites env ∧
    WriteOp.replace audioTimeoutRec ∉ audioWrites env ∧
    videoStartRec.status = "downloading" ∧
    videoTimeoutRec.status = "failed" := by
  have hv : ∀ r : TaskRec, WriteOp.replace r ∈ videoWrites env →
      r = videoStartRec := by
    intro r hr
    unfold videoWrites at hr
    rw [hfe] at hr
    simp only [List.append_nil, List.mem_append, List.mem_cons,
      List.not_mem_nil, or_false] at hr
    rcases hr with (h | h | h) | h
    · injection h with h'
    · exact absurd h (by simp)
    · exact absurd h (by simp)
    · rw [List.mem_flatten] at h
      obtain ⟨l, hl, hw⟩ := h
      rw [List.mem_map] at hl
      obtain ⟨line, _, rfl⟩ := hl
      rcases mem_fetchLineWrites hw with ⟨p, hp⟩ | ⟨m, hm⟩
      · exact absurd hp (by simp)
      · exact absurd hm (by simp)
  have ha : ∀ r : TaskRec, WriteOp.replace r ∈ audioWrites env →
      r = audioStartRec := by
    intro r hr
    unfold audioWrites at hr
    rw [hfe] at hr
    simp only [List.append_nil, List.mem_append, List.mem_cons,
      List.not_mem_nil, or_false] at hr
    rcases hr with (h | h | h) | h
    · injection h with h'
    · exact absurd h (by simp)
    · exact absurd h (by simp)
    · rw [List.mem_flatten] at h
      obtain ⟨l, hl, hw⟩ := h
      rw [List.mem_map] at hl
      obtain ⟨line, _, rfl⟩ := hl
      rcases mem_fetchLineWrites hw with ⟨p, hp⟩ | ⟨m, hm⟩
      · exact absurd hp (by simp)
      · exact absurd hm (by simp)
  refine ⟨hv, ha, fun hmem => ?_, fun hmem => ?_, rfl, rfl⟩
  · exact absurd (hv _ hmem) (by decide)
  · exact absurd (ha _ hmem) (by decide)

/-- Witness for C4's theorem at a concretely hanging fetch process. -/
theorem fetch_has_no_timeout_witness :
    WriteOp.replace videoTimeoutRec ∉ videoWrites envHang ∧
    WriteOp.replace audioTimeoutRec ∉ audioWrites envHang := by
  have h := fetch_has_no_timeout envHang rfl
  exact ⟨h.2.2.1, h.2.2.2.1⟩

/-- C5: a non-zero fetch exit code makes both pipelines end their trace with
the terminal `failed` replacement whose `error` is exactly
`"Process exited with non-zero code"`. -/
theorem nonzero_exit_failure (env : PipelineEnv) (rc : Int)
    (hfe : env.fetchExit = some rc) (hrc : rc ≠ 0) :
    lastWrite (videoWrites env) = some (.replace fetchFailedRec) ∧
    lastWrite (audioWrites env) = some (.replace audioFetchFailedRec) ∧
    fetchFailedRec.status = "failed" ∧
    fetchFailedRec.error = some "Process exited with non-zero code" ∧
    audioFetchFailedRec.status = "failed" ∧
    audioFetchFailedRec.error = some "Process exited with non-zero code" := by
  refine ⟨?_, ?_, rfl, rfl, rfl, rfl⟩
  · have hlist : videoWrites env =
        ([.replace videoStartRec, .setProgress 10,
          .setMessage "Downloading video..."]
         ++ (env.fetchLines.map (fetchLineWrites "video")).flatten)
        ++ [.replace fetchFailedRec] := by
      unfold videoWrites
      rw [hfe]
      rw [List.append_assoc]
      show _ ++ (_ ++ (if rc ≠ 0 then [WriteOp.replace fetchFailedRec]
        else _)) = _
      rw [if_pos hrc]
      exact (List.append_assoc _ _ _).symm
    rw [hlist]
    exact lastWrite_append_singleton _ _
  · have hlist : audioWrites env =
        ([.replace audioStartRec, .setProgress 10,
          .setMessage "Downloading audio..."]
         ++ (env.fetchLines.map (fetchLineWrites "audio")).flatten)
        ++ [.replace audioFetchFailedRec] := by
      unfold audioWrites
      rw [hfe]
      rw [List.append_assoc]
      show _ ++ (_ ++ (if rc ≠ 0 then [WriteOp.replace audioFetchFailedRec]
        else _)) = _
      rw [if_pos hrc]
      exact (List.append_assoc _ _ _).symm
    rw [hlist]
    exact lastWrite_append_singleton _ _

/-- Witness for C5's theorem at a fetch process exiting with code 1. -/
theorem nonzero_exit_failure_witness :
    lastWrite (videoWrites envExit1) = some (WriteOp.replace fetchFailedRec) ∧
    lastWrite (audioWrites envExit1) =
      some (WriteOp.replace audioFetchFailedRec) := by
  have h := nonzero_exit_failure envExit1 1 rfl (by decide)
  exact ⟨h.1, h.2.1⟩

/-- Witness for C6's theorem at a concrete well-formed progress line. -/
theorem fetch_progress_mapping_witness :
    ((fetchLineWrites "video" "download:300/1000").foldl applyWrite
      videoStartRec).progress = 17 := by
  have h := (fetch_progress_mapping videoStartRec "download:300/1000"
    300 1000).1 (by decide)
  exact h.1.trans (by decide)

/-- Witness for C7's theorem at the `high` quality request. -/
theorem quality_height_mapping_witness :
    heightCeilingOf (get_optimized_format_selector "high" none none) =
      some 1080 := by
  have h := quality_height_mapping "high" none
  exact h.2.trans (by decide)

/-- Witness for C8's theorem at the `"128kbps"` pick of the spec scenario. -/
theorem audio_bitrate_window_witness :
    audioSelectorOf (some "128kbps") =
      "bestaudio[abr<=" ++ toString ((128 : Int) + 10) ++ "][abr>=" ++
        toString ((128 : Int) - 10) ++ "]" :=
  (audio_bitrate_window.2 "128kbps" (by decide)).1 128 (by decide)

/-- Witness for C9's theorem at a concrete unparseable video pick. -/
theorem selector_total_and_fallback_witness :
    get_optimized_format_selector "best" (some "oops") none =
      fallbackSelector "best" := by
  have h := selector_total_and_fallback "best" (some "oops") none
  exact h.2.2.2 "oops" rfl (by decide)

end Downly
